import Mathlib

/-!
Verification development for the nokhwa camera library core
(src/utils.rs and src/js_camera.rs), shallowly embedded in Lean.

Machine integers are modelled as Int (i32) or Nat (u32/usize/u8) with
explicit two-complement wrapping where i32 overflow matters.  Fallible
Rust functions return an explicit outcome type; a Rust panic (remainder
by zero, slice length mismatch in copy_from_slice) is modelled by a
dedicated outcome constructor.
-/

/-- Outcome of a fallible Rust call: Ok value, typed error, or panic. -/
inductive RustResult (ε : Type) (α : Type) where
  | ok (val : α)
  | err (e : ε)
  | panicked
  deriving DecidableEq, Repr

/-- FrameFormat from src/utils.rs: the encoding tag of a raw frame. -/
inductive FrameFormat where
  | MJPEG
  | YUYV
  deriving DecidableEq, Repr

/-- The error enum of the library (the variants used by the embedded code).
Field names follow the Rust definition; `structure` is a Lean keyword so
that field is spelled with a trailing underscore. -/
inductive NokhwaError where
  | StructureError (structure_ : String) (error : String)
  | ProcessFrameError (src : FrameFormat) (destination : String) (error : String)
  | ReadFrameError (error : String)
  | NotImplementedError (error : String)
  deriving DecidableEq, Repr

/-- Resolution from src/utils.rs: width and height, u32 each. -/
structure Resolution where
  width_x : Nat
  height_y : Nat
  deriving DecidableEq, Repr

/-- Resolution::new. -/
def Resolution.new (x y : Nat) : Resolution := ⟨x, y⟩

/-- Resolution::width. -/
def Resolution.width (r : Resolution) : Nat := r.width_x

/-- Resolution::height. -/
def Resolution.height (r : Resolution) : Nat := r.height_y

/-- The Ord impl for Resolution (src/utils.rs lines 126 to 134):
compare widths; on a tie compare heights. -/
def Resolution.cmp (a b : Resolution) : Ordering :=
  match compare a.width_x b.width_x with
  | Ordering.lt => Ordering.lt
  | Ordering.eq => compare a.height_y b.height_y
  | Ordering.gt => Ordering.gt

/-- Rust a < b means cmp a b == Less. -/
def Resolution.ltR (a b : Resolution) : Prop := Resolution.cmp a b = Ordering.lt

instance (a b : Resolution) : Decidable (Resolution.ltR a b) := by
  unfold Resolution.ltR
  infer_instance

/-- Two-complement wrap of an unbounded integer into the i32 range,
the release-mode semantics of every overflowing i32 operation. -/
def wrap32 (n : Int) : Int := (n + 2147483648) % 4294967296 - 2147483648

/-- i32::clamp. -/
def clampI (x lo hi : Int) : Int := if x < lo then lo else if x > hi then hi else x

/-- yuyv444_to_rgb888 from src/utils.rs lines 897 to 905, with every i32
operation wrapped.  The shift right by 8 on an in-range i32 is floor
division by 256 (arithmetic shift); Int division in Lean is Euclidean,
which agrees with floor division for a positive divisor. -/
def yuyv444_to_rgb888 (y u v : Int) : List Int :=
  let c298 := wrap32 (wrap32 (y - 16) * 298)
  let d := wrap32 (u - 128)
  let e := wrap32 (v - 128)
  let r := clampI (wrap32 (wrap32 (c298 + wrap32 (409 * e)) + 128) / 256) 0 255
  let g := clampI
    (wrap32 (wrap32 (wrap32 (c298 - wrap32 (100 * d)) - wrap32 (208 * e)) + 128) / 256) 0 255
  let b := clampI (wrap32 (wrap32 (c298 + wrap32 (516 * d)) + 128) / 256) 0 255
  [r, g, b]

/-- The conversion formula exactly as the specification words it (claim C1),
in unbounded integer arithmetic: c = (y-16)*298, then the three clamped
shifted channels. -/
def yuvFormulaSpec (y u v : Int) : List Int :=
  let c := (y - 16) * 298
  [ clampI ((c + 409 * (v - 128) + 128) / 256) 0 255,
    clampI ((c - 100 * (u - 128) - 208 * (v - 128) + 128) / 256) 0 255,
    clampI ((c + 516 * (u - 128) + 128) / 256) 0 255 ]

/-- The u8 output triple of yuyv444_to_rgb888 for byte inputs. -/
def yuyv444_bytes (y u v : Nat) : List Nat :=
  (yuyv444_to_rgb888 (y : Int) (u : Int) (v : Int)).map Int.toNat

/-- One pass of the yuyv422_to_rgb888 loop (src/utils.rs lines 798 to 879):
each 4-byte group Y1 U Y2 V yields the pixels for (Y1,U,V) then (Y2,U,V).
The source iterates px_idx over 0, 4, 8, ... and reads data[px_idx] to
data[px_idx+3]; when the length is a multiple of 4 every read is in
bounds and the loop is exactly this chunked recursion. -/
def yuyv422_body : List Nat → List Nat
  | y1 :: u :: y2 :: v :: rest =>
      yuyv444_bytes y1 u v ++ yuyv444_bytes y2 u v ++ yuyv422_body rest
  | _ => []

/-- The length-assertion message of yuyv422_to_rgb888. -/
def yuyvAssertMsg : String :=
  "Assertion failure, the YUV stream isn\x27t 4:2:2! (wrong number of bytes)"

/-- yuyv422_to_rgb888 from src/utils.rs lines 795 to 889. -/
def yuyv422_to_rgb888 (data : List Nat) : Except NokhwaError (List Nat) :=
  if data.length % 4 = 0 then
    Except.ok (yuyv422_body data)
  else
    Except.error (NokhwaError.ProcessFrameError FrameFormat.YUYV "RGB888" yuyvAssertMsg)

/-- KnownCameraControls from src/utils.rs. -/
inductive KnownCameraControls where
  | Brightness | Contrast | Hue | Saturation | Sharpness | Gamma | ColorEnable
  | WhiteBalance | BacklightComp | Gain | Pan | Tilt | Roll | Zoom | Exposure
  | Iris | Focus
  deriving DecidableEq, Repr

/-- KnownCameraControlFlag from src/utils.rs. -/
inductive KnownCameraControlFlag where
  | Automatic
  | Manual
  deriving DecidableEq, Repr

/-- CameraControl from src/utils.rs: one adjustable camera parameter.
All numeric fields are i32 in the source, modelled as Int (theorems add
i32-range hypotheses where the range matters). -/
structure CameraControl where
  control : KnownCameraControls
  min : Int
  max : Int
  value : Int
  step : Int
  default : Int
  flag : KnownCameraControlFlag
  active : Bool
  deriving DecidableEq, Repr

/-- The guard shared by CameraControl::new, set_value and with_value
(src/utils.rs lines 552 to 569, 611 to 628, 638 to 655): value >= max is
rejected first, then value <= min, then the step-alignment test
value % step != 0.  Rust % on i32 is truncated remainder (Int.tmod) and
panics when step is zero, or on the overflowing case MIN % -1; both
panics are modelled by the panicked outcome. -/
def cameraControlGuard (minimum maximum value step : Int) :
    RustResult NokhwaError Unit :=
  if value ≥ maximum then
    RustResult.err (NokhwaError.StructureError "CameraControl" "Value too large")
  else if value ≤ minimum then
    RustResult.err (NokhwaError.StructureError "CameraControl" "Value too low")
  else if step = 0 ∨ (value = -2147483648 ∧ step = -1) then
    RustResult.panicked
  else if Int.tmod value step ≠ 0 then
    RustResult.err (NokhwaError.StructureError "CameraControl" "Not aligned with step")
  else
    RustResult.ok ()

/-- CameraControl::new from src/utils.rs lines 542 to 581. -/
def CameraControl.new (control : KnownCameraControls) (minimum maximum value step dflt : Int)
    (flag : KnownCameraControlFlag) (active : Bool) : RustResult NokhwaError CameraControl :=
  match cameraControlGuard minimum maximum value step with
  | RustResult.err e => RustResult.err e
  | RustResult.panicked => RustResult.panicked
  | RustResult.ok _ =>
      RustResult.ok
        { control := control, min := minimum, max := maximum, value := value,
          step := step, default := dflt, flag := flag, active := active }

/-- CameraControl::set_value from src/utils.rs lines 610 to 632; the Rust
method mutates self and returns Ok(()), modelled by returning the updated
record. -/
def CameraControl.set_value (c : CameraControl) (value : Int) :
    RustResult NokhwaError CameraControl :=
  match cameraControlGuard c.min c.max value c.step with
  | RustResult.err e => RustResult.err e
  | RustResult.panicked => RustResult.panicked
  | RustResult.ok _ => RustResult.ok { c with value := value }

/-- CameraControl::with_value from src/utils.rs lines 637 to 667. -/
def CameraControl.with_value (c : CameraControl) (value : Int) :
    RustResult NokhwaError CameraControl :=
  match cameraControlGuard c.min c.max value c.step with
  | RustResult.err e => RustResult.err e
  | RustResult.panicked => RustResult.panicked
  | RustResult.ok _ =>
      RustResult.ok
        { control := c.control, min := c.min, max := c.max, value := value,
          step := c.step, default := c.default, flag := c.flag, active := c.active }

/-- Model of an f64 as an exact decimal fraction num / den.  The builder
code only ever tests an f64 against 0.0 and formats it into a fragment;
an f64 equals 0.0 exactly when its numerator is 0.  The printed form of a
non-integer value differs from the Rust decimal rendering, and no theorem
below depends on those digits. -/
structure F64 where
  num : Int
  den : Nat
  deriving DecidableEq, Repr

/-- Numeric zero test of the modelled f64, matching x == 0.0 on doubles. -/
def F64.isZero (x : F64) : Bool := x.num = 0

/-- Display model for the f64 field (stands in for the Rust Display of f64). -/
def F64.display (x : F64) : String :=
  if x.den = 1 then toString x.num else toString x.num ++ "/" ++ toString x.den

/-- JSCameraFacingMode from src/js_camera.rs. -/
inductive JSCameraFacingMode where
  | Any
  | Environment
  | User
  | Left
  | Right
  deriving DecidableEq, Repr

/-- The Display impl of JSCameraFacingMode. -/
def JSCameraFacingMode.display : JSCameraFacingMode → String
  | JSCameraFacingMode.Environment => "environment"
  | JSCameraFacingMode.User => "user"
  | JSCameraFacingMode.Left => "left"
  | JSCameraFacingMode.Right => "right"
  | JSCameraFacingMode.Any => "any"

/-- JSCameraResizeMode from src/js_camera.rs. -/
inductive JSCameraResizeMode where
  | Any
  | None
  | CropAndScale
  deriving DecidableEq, Repr

/-- The Display impl of JSCameraResizeMode. -/
def JSCameraResizeMode.display : JSCameraResizeMode → String
  | JSCameraResizeMode.None => "none"
  | JSCameraResizeMode.CropAndScale => "crop-and-scale"
  | JSCameraResizeMode.Any => ""

/-- JSCameraConstraintsBuilder from src/js_camera.rs lines 424 to 439. -/
structure JSCameraConstraintsBuilder where
  preferred_resolution : Resolution
  resolution_exact : Bool
  aspect_ratio : F64
  aspect_ratio_exact : Bool
  facing_mode : JSCameraFacingMode
  facing_mode_exact : Bool
  frame_rate : Nat
  frame_rate_exact : Bool
  resize_mode : JSCameraResizeMode
  resize_mode_exact : Bool
  device_id : String
  device_id_exact : Bool
  group_id : String
  group_id_exact : Bool
  deriving DecidableEq, Repr

/-- The Default impl of JSCameraConstraintsBuilder (src/js_camera.rs lines
765 to 784): 640x480, aspect ratio 1.777_777_777_78, 15 FPS, no exacts.
The f64 literal is modelled as the exact decimal it is written as; only
its zero test matters below. -/
def JSCameraConstraintsBuilder.default : JSCameraConstraintsBuilder :=
  { preferred_resolution := Resolution.new 640 480
    resolution_exact := false
    aspect_ratio := ⟨177777777778, 100000000000⟩
    aspect_ratio_exact := false
    facing_mode := JSCameraFacingMode.Any
    facing_mode_exact := false
    frame_rate := 15
    frame_rate_exact := false
    resize_mode := JSCameraResizeMode.Any
    resize_mode_exact := false
    device_id := ""
    device_id_exact := false
    group_id := ""
    group_id_exact := false }

/-- JSCameraConstraintsBuilder::resolution, the resolution setter. -/
def JSCameraConstraintsBuilder.resolution (b : JSCameraConstraintsBuilder) (r : Resolution) :
    JSCameraConstraintsBuilder :=
  { b with preferred_resolution := r }

/-- JSCameraConstraintsBuilder::resolution_exact, the exact-flag setter. -/
def JSCameraConstraintsBuilder.resolutionExactSet (b : JSCameraConstraintsBuilder) (v : Bool) :
    JSCameraConstraintsBuilder :=
  { b with resolution_exact := v }

/-- The null resolution of build(): Resolution::default() is 0x0. -/
def nullResolution : Resolution := ⟨0, 0⟩

/-- width fragment of build() (src/js_camera.rs lines 581 to 593).  The
exact branch tests the whole resolution against the null resolution, the
ideal branch tests only the width. -/
def width_string (b : JSCameraConstraintsBuilder) : String :=
  if b.resolution_exact then
    if b.preferred_resolution = nullResolution then ""
    else "width: \x7b exact: " ++ toString b.preferred_resolution.width_x ++ " \x7d"
  else if b.preferred_resolution.width_x = 0 then ""
  else "width: \x7b ideal: " ++ toString b.preferred_resolution.width_x ++ " \x7d"

/-- height fragment of build() (src/js_camera.rs lines 595 to 613).  Note:
the source selects the exact branch on aspect_ratio_exact, not on
resolution_exact, and both branches test the whole resolution against the
null resolution. -/
def height_string (b : JSCameraConstraintsBuilder) : String :=
  if b.aspect_ratio_exact then
    if b.preferred_resolution = nullResolution then ""
    else "height: \x7b exact: " ++ toString b.preferred_resolution.height_y ++ " \x7d"
  else if b.preferred_resolution = nullResolution then ""
  else "height: \x7b ideal: " ++ toString b.preferred_resolution.height_y ++ " \x7d"

/-- aspectRatio fragment of build() (src/js_camera.rs lines 615 to 627). -/
def aspect_ratio_string (b : JSCameraConstraintsBuilder) : String :=
  if b.aspect_ratio_exact then
    if b.aspect_ratio.isZero then ""
    else "aspectRatio: \x7b exact: " ++ b.aspect_ratio.display ++ " \x7d"
  else if b.aspect_ratio.isZero then ""
  else "aspectRatio: \x7b ideal: " ++ b.aspect_ratio.display ++ " \x7d"

/-- facingMode fragment of build() (src/js_camera.rs lines 629 to 641). -/
def facing_mode_string (b : JSCameraConstraintsBuilder) : String :=
  if b.facing_mode_exact then
    if b.facing_mode = JSCameraFacingMode.Any then ""
    else "facingMode: \x7b exact: " ++ b.facing_mode.display ++ " \x7d"
  else if b.facing_mode = JSCameraFacingMode.Any then ""
  else "facingMode: \x7b ideal: " ++ b.facing_mode.display ++ " \x7d"

/-- frameRate fragment of build() (src/js_camera.rs lines 643 to 655). -/
def frame_rate_string (b : JSCameraConstraintsBuilder) : String :=
  if b.frame_rate_exact then
    if b.frame_rate = 0 then ""
    else "frameRate: \x7b exact: " ++ toString b.frame_rate ++ " \x7d"
  else if b.frame_rate = 0 then ""
  else "frameRate: \x7b ideal: " ++ toString b.frame_rate ++ " \x7d"

/-- resizeMode fragment of build() (src/js_camera.rs lines 657 to 669). -/
def resize_mode_string (b : JSCameraConstraintsBuilder) : String :=
  if b.resize_mode_exact then
    if b.resize_mode = JSCameraResizeMode.Any then ""
    else "resizeMode: \x7b exact: " ++ b.resize_mode.display ++ " \x7d"
  else if b.resize_mode = JSCameraResizeMode.Any then ""
  else "resizeMode: \x7b ideal: " ++ b.resize_mode.display ++ " \x7d"

/-- deviceId fragment of build() (src/js_camera.rs lines 671 to 683). -/
def device_id_string (b : JSCameraConstraintsBuilder) : String :=
  if b.device_id_exact then
    if b.device_id = "" then ""
    else "deviceId: \x7b exact: " ++ b.device_id ++ " \x7d"
  else if b.device_id = "" then ""
  else "deviceId: \x7b ideal: " ++ b.device_id ++ " \x7d"

/-- groupId fragment of build() (src/js_camera.rs lines 685 to 697). -/
def group_id_string (b : JSCameraConstraintsBuilder) : String :=
  if b.group_id_exact then
    if b.group_id = "" then ""
    else "groupId: \x7b exact: " ++ b.group_id ++ " \x7d"
  else if b.group_id = "" then ""
  else "groupId: \x7b ideal: " ++ b.group_id ++ " \x7d"

/-- Character-list lexicographic strict order, byte order on ASCII, the
order Rust Vec<String>::sort uses on these fragments. -/
def charListLt : List Char → List Char → Bool
  | [], [] => false
  | [], _ :: _ => true
  | _ :: _, [] => false
  | a :: as, b :: bs =>
      if a.toNat < b.toNat then true
      else if a.toNat = b.toNat then charListLt as bs
      else false

/-- Non-strict string order used for sorting the fragments. -/
def strLeB (a b : String) : Bool := a == b || charListLt a.data b.data

/-- Insert a string into a sorted list. -/
def insertStr (a : String) : List String → List String
  | [] => [a]
  | b :: rest => if strLeB a b then a :: b :: rest else b :: insertStr a rest

/-- Sort a list of strings ascending (arguments.sort() in build()). -/
def sortStrs : List String → List String
  | [] => []
  | a :: rest => insertStr a (sortStrs rest)

/-- Remove consecutive duplicates (arguments.dedup() in build()). -/
def dedupAdj : List String → List String
  | [] => []
  | [a] => [a]
  | a :: b :: rest => if a = b then dedupAdj (b :: rest) else a :: dedupAdj (b :: rest)

/-- The eight field fragments of build() in source order
(src/js_camera.rs lines 699 to 708). -/
def buildFragments (b : JSCameraConstraintsBuilder) : List String :=
  [ width_string b, height_string b, aspect_ratio_string b, facing_mode_string b,
    frame_rate_string b, resize_mode_string b, device_id_string b, group_id_string b ]

/-- The fragment list after arguments.sort() and arguments.dedup(). -/
def buildArguments (b : JSCameraConstraintsBuilder) : List String :=
  dedupAdj (sortStrs (buildFragments b))

/-- The fragments that actually render (the non-empty ones). -/
def renderedFragments (b : JSCameraConstraintsBuilder) : List String :=
  (buildArguments b).filter (fun s => s ≠ "")

/-- arguments_condensed of build() (src/js_camera.rs lines 712 to 720):
fold the sorted deduplicated fragments, skipping empty ones, as
",fragment\n" each; an empty result becomes the string true, the
unconstrained video directive. -/
def buildArgumentsCondensed (b : JSCameraConstraintsBuilder) : String :=
  let s := (buildArguments b).foldl
    (fun acc argument => if argument ≠ "" then acc ++ "," ++ argument ++ "\n" else acc) ""
  if s = "" then "true" else s

/-- JSCameraConstraints from src/js_camera.rs lines 791 to 807.  The opaque
web MediaStreamConstraints member is modelled by the video body string the
JS constructor function is built from ({audio: false, video: videoBody}). -/
structure JSCameraConstraints where
  videoBody : String
  preferred_resolution : Resolution
  resolution_exact : Bool
  aspect_ratio : F64
  aspect_ratio_exact : Bool
  facing_mode : JSCameraFacingMode
  facing_mode_exact : Bool
  frame_rate : Nat
  frame_rate_exact : Bool
  resize_mode : JSCameraResizeMode
  resize_mode_exact : Bool
  device_id : String
  device_id_exact : Bool
  group_id : String
  group_id_exact : Bool
  deriving DecidableEq, Repr

/-- JSCameraConstraintsBuilder::build, the value it returns when the JS
constraint-construction call succeeds (src/js_camera.rs lines 735 to 756).
Every directive field is copied from the builder, except that the source
assigns group_id_exact from self.device_id_exact (line 754). -/
def JSCameraConstraintsBuilder.build (b : JSCameraConstraintsBuilder) : JSCameraConstraints :=
  { videoBody := buildArgumentsCondensed b
    preferred_resolution := b.preferred_resolution
    resolution_exact := b.resolution_exact
    aspect_ratio := b.aspect_ratio
    aspect_ratio_exact := b.aspect_ratio_exact
    facing_mode := b.facing_mode
    facing_mode_exact := b.facing_mode_exact
    frame_rate := b.frame_rate
    frame_rate_exact := b.frame_rate_exact
    resize_mode := b.resize_mode
    resize_mode_exact := b.resize_mode_exact
    device_id := b.device_id
    device_id_exact := b.device_id_exact
    group_id := b.group_id
    group_id_exact := b.device_id_exact }

/-- Kind of a DOM node held by the session: attach always stores a node
obtained from (or cast to) an HtmlVideoElement. -/
inductive NodeKind where
  | videoElement
  | other
  deriving DecidableEq, Repr

/-- JSCamera from src/js_camera.rs lines 1041 to 1046.  The web MediaStream
handle is opaque and carries no state the embedded operations read, so it
is omitted; attached and attached_node are the session lifecycle state. -/
structure JSCamera where
  constraints : JSCameraConstraints
  attached : Bool
  attached_node : Option NodeKind
  deriving DecidableEq, Repr

/-- JSCamera::new, the state of a freshly negotiated session
(src/js_camera.rs lines 1083 to 1088): not attached, no node. -/
def JSCamera.openState (constraints : JSCameraConstraints) : JSCamera :=
  { constraints := constraints, attached := false, attached_node := none }

/-- JSCamera::preferred_resolution. -/
def JSCamera.preferred_resolution (cam : JSCamera) : Resolution :=
  cam.constraints.preferred_resolution

/-- The state mutation of a successful JSCamera::attach (either branch,
src/js_camera.rs lines 1337 to 1341 and 1359 to 1361): the bound video
node is recorded and attached becomes true. -/
def JSCamera.attachSuccess (cam : JSCamera) : JSCamera :=
  { cam with attached_node := some NodeKind.videoElement, attached := true }

/-- JSCamera::de_attach from src/js_camera.rs lines 1365 to 1382: early
Ok(()) when not attached or when no node is recorded; otherwise the node
is re-cast to HtmlVideoElement (StructureError on failure), its source is
cleared and the state is reset. -/
def JSCamera.de_attach (cam : JSCamera) : RustResult NokhwaError JSCamera :=
  if !cam.attached then RustResult.ok cam
  else
    match cam.attached_node with
    | none => RustResult.ok cam
    | some node =>
        if node = NodeKind.videoElement then
          RustResult.ok { cam with attached_node := none, attached := false }
        else
          RustResult.err
            (NokhwaError.StructureError "HtmlVideoElement" "Cannot Cast - No Subtype")

/-- The session states reachable through the lifecycle operations: a fresh
open, a successful attach, a successful de_attach, and constraint updates
(which touch neither attached nor attached_node). -/
inductive ReachableJSCamera : JSCamera → Prop
  | opened (constraints : JSCameraConstraints) :
      ReachableJSCamera (JSCamera.openState constraints)
  | attachedStep (cam : JSCamera) :
      ReachableJSCamera cam → ReachableJSCamera (JSCamera.attachSuccess cam)
  | deattachedStep (cam cam2 : JSCamera) :
      ReachableJSCamera cam → JSCamera.de_attach cam = RustResult.ok cam2 →
      ReachableJSCamera cam2
  | constraintsStep (cam : JSCamera) (c : JSCameraConstraints) :
      ReachableJSCamera cam → ReachableJSCamera { cam with constraints := c }

/-- slice::copy_from_slice: copies when the two lengths match and panics
otherwise; there is no partial write. -/
def copy_from_slice (dst src : List Nat) : RustResult NokhwaError (List Nat) :=
  if dst.length = src.length then RustResult.ok src else RustResult.panicked

/-- The RGBA to RGB pixel conversion of ImageBuffer::convert: every 4-byte
RGBA pixel keeps its first three bytes. -/
def rgbaToRgb : List Nat → List Nat
  | r :: g :: bl :: _a :: rest => r :: g :: bl :: rgbaToRgb rest
  | _ => []

/-- JSCamera::min_buffer_size from src/js_camera.rs lines 1531 to 1538. -/
def JSCamera.min_buffer_size (cam : JSCamera) (use_rgba : Bool) : Nat :=
  let resolution := cam.preferred_resolution
  if use_rgba then resolution.width_x * resolution.height_y * 4
  else resolution.width_x * resolution.height_y * 3

/-- JSCamera::write_frame_to_buffer from src/js_camera.rs lines 1543 to
1569.  frame is the RGBA byte readback that the (external, browser-side)
frame_raw call returned; buffer is the caller buffer.  On success the
result carries the bytes the buffer now holds and the returned count.
ImageBuffer::from_raw yields Some when the container holds at least
width*height*4 bytes; both copies go through the unchecked
copy_from_slice. -/
def JSCamera.write_frame_to_buffer (cam : JSCamera) (frame : List Nat) (buffer : List Nat)
    (convert_rgba : Bool) : RustResult NokhwaError (List Nat × Nat) :=
  let resolution := cam.preferred_resolution
  if convert_rgba then
    match copy_from_slice buffer frame with
    | RustResult.ok written => RustResult.ok (written, frame.length)
    | RustResult.err e => RustResult.err e
    | RustResult.panicked => RustResult.panicked
  else
    if resolution.width_x * resolution.height_y * 4 ≤ frame.length then
      let image := rgbaToRgb (frame.take (resolution.width_x * resolution.height_y * 4))
      match copy_from_slice buffer image with
      | RustResult.ok written => RustResult.ok (written, image.length)
      | RustResult.err e => RustResult.err e
      | RustResult.panicked => RustResult.panicked
    else
      RustResult.err (NokhwaError.ReadFrameError "Frame Cow Too Small")

/-- A builder whose every directive is the zero or empty value, so that
every field fragment renders empty. -/
def unconstrainedBuilder : JSCameraConstraintsBuilder :=
  { preferred_resolution := nullResolution
    resolution_exact := false
    aspect_ratio := ⟨0, 1⟩
    aspect_ratio_exact := false
    facing_mode := JSCameraFacingMode.Any
    facing_mode_exact := false
    frame_rate := 0
    frame_rate_exact := false
    resize_mode := JSCameraResizeMode.Any
    resize_mode_exact := false
    device_id := ""
    device_id_exact := false
    group_id := ""
    group_id_exact := false }

/-- The zero builder with only the resolution directive set to 640x480,
non-exact. -/
def resOnlyBuilder : JSCameraConstraintsBuilder :=
  (unconstrainedBuilder.resolution (Resolution.new 640 480)).resolutionExactSet false

/-- The builder the claim text of C3 describes: the default builder after
setting resolution 640x480 and resolution_exact false (which are already
its default values). -/
def claimedResBuilder : JSCameraConstraintsBuilder :=
  (JSCameraConstraintsBuilder.default.resolution (Resolution.new 640 480)).resolutionExactSet
    false

/-- A builder that differs from the zero builder only in group_id_exact,
to expose the group_id_exact assignment of build(). -/
def groupIdBugBuilder : JSCameraConstraintsBuilder :=
  { unconstrainedBuilder with group_id_exact := true }

/-- A concrete valid camera control, used to instantiate theorems. -/
def sampleControl : CameraControl :=
  { control := KnownCameraControls.Brightness, min := 0, max := 100, value := 50,
    step := 2, default := 50, flag := KnownCameraControlFlag.Manual, active := true }

/-- A camera control record whose step is zero, the remainder-by-zero
hazard input of set_value. -/
def zeroStepControl : CameraControl :=
  { control := KnownCameraControls.Brightness, min := 0, max := 10, value := 4,
    step := 0, default := 4, flag := KnownCameraControlFlag.Manual, active := true }

/-- A session over a 1x1 preferred resolution, whose RGBA frame readback
is 4 bytes. -/
def tinyCamera : JSCamera :=
  JSCamera.openState
    (JSCameraConstraintsBuilder.build
      { unconstrainedBuilder with preferred_resolution := Resolution.new 1 1 })

/-- A freshly opened, never attached session over the unconstrained
request. -/
def sampleCamera : JSCamera :=
  JSCamera.openState (JSCameraConstraintsBuilder.build unconstrainedBuilder)

/-- Wrapping is the identity on values already inside the i32 range. -/
theorem wrap32_eq_self (x : Int) (h1 : -2147483648 ≤ x) (h2 : x < 2147483648) :
    wrap32 x = x := by
  unfold wrap32
  omega

/-- The per-pixel conversion always yields exactly three bytes. -/
theorem yuyv444_bytes_length (y u v : Nat) : (yuyv444_bytes y u v).length = 3 := rfl

/-- On an input whose length is a multiple of 4, the conversion loop body
yields 3 bytes of output for every 2 bytes of input. -/
theorem yuyv422_body_length (l : List Nat) (h : l.length % 4 = 0) :
    2 * (yuyv422_body l).length = 3 * l.length := by
  induction l using yuyv422_body.induct with
  | case1 y1 u y2 v rest ih =>
      simp only [yuyv422_body, List.length_append, List.length_cons] at *
      rw [yuyv444_bytes_length, yuyv444_bytes_length]
      omega
  | case2 l hne =>
      rcases l with _ | ⟨a, _ | ⟨b, _ | ⟨c, _ | ⟨d, rest⟩⟩⟩⟩
      · simp [yuyv422_body]
      · simp at h
      · simp at h
      · simp at h
      · exact (hne a b c d rest rfl).elim

/-- The shared validation guard accepts exactly the aligned strictly
interior values (for a nonzero step and an i32 lower bound). -/
theorem cameraControlGuard_ok_iff (minimum maximum value step : Int)
    (hmin : -2147483648 ≤ minimum) (hstep : step ≠ 0) :
    cameraControlGuard minimum maximum value step = RustResult.ok () ↔
      (minimum < value ∧ value < maximum ∧ Int.tmod value step = 0) := by
  unfold cameraControlGuard
  split_ifs with h1 h2 h3 h4
  · simp only [reduceCtorEq, false_iff]
    rintro ⟨-, hlt, -⟩
    omega
  · simp only [reduceCtorEq, false_iff]
    rintro ⟨hgt, -, -⟩
    omega
  · simp only [reduceCtorEq, false_iff]
    rintro ⟨hgt, -, -⟩
    rcases h3 with h3 | ⟨h3, -⟩ <;> omega
  · simp only [reduceCtorEq, false_iff]
    rintro ⟨-, -, hmod⟩
    exact h4 hmod
  · simp only [true_iff]
    refine ⟨by omega, by omega, by tauto⟩

/-- The shared validation guard turns every boundary or misaligned value
into a StructureError (for a nonzero step and an i32 lower bound). -/
theorem cameraControlGuard_rejects (minimum maximum value step : Int)
    (hmin : -2147483648 ≤ minimum) (hstep : step ≠ 0)
    (h : value = minimum ∨ value = maximum ∨ Int.tmod value step ≠ 0) :
    ∃ s e, cameraControlGuard minimum maximum value step =
      RustResult.err (NokhwaError.StructureError s e) := by
  unfold cameraControlGuard
  split_ifs with h1 h2 h3 h4
  · exact ⟨_, _, rfl⟩
  · exact ⟨_, _, rfl⟩
  · rcases h3 with h3 | ⟨h3, -⟩ <;> omega
  · exact ⟨_, _, rfl⟩
  · rcases h with h | h | h <;> [omega; omega; exact absurd (by tauto) h]

/-- In every reachable session state, not attached implies no recorded
node. -/
theorem reachable_unattached_node_none (cam : JSCamera) (h : ReachableJSCamera cam) :
    cam.attached = false → cam.attached_node = none := by
  induction h with
  | opened constraints => intro _; rfl
  | attachedStep cam h ih =>
      intro hatt
      simp [JSCamera.attachSuccess] at hatt
  | deattachedStep cam cam2 h hok ih =>
      intro hatt
      unfold JSCamera.de_attach at hok
      by_cases hc : cam.attached
      · simp only [hc, Bool.not_true, Bool.false_eq_true, if_false] at hok
        rcases hn : cam.attached_node with _ | node
        · rw [hn] at hok
          simp only [RustResult.ok.injEq] at hok
          subst hok
          exact hn
        · rw [hn] at hok
          by_cases hv : node = NodeKind.videoElement
          · simp only [hv, if_true] at hok
            simp only [RustResult.ok.injEq] at hok
            subst hok
            rfl
          · simp [hv] at hok
      · simp only [hc] at hok
        simp only [Bool.not_false, if_true, RustResult.ok.injEq] at hok
        subst hok
        exact ih (by simpa using hc)
  | constraintsStep cam c h ih =>
      intro hatt
      exact ih hatt




/-- Claim C1, counterexample: at the i32 input (8000000, 128, 128) the
source function, whose i32 intermediates wrap, does not return the value
of the unbounded integer formula, so the claim quantified over every i32
triple fails. -/
theorem yuyv444_overflow_diverges :
    yuyv444_to_rgb888 8000000 128 128 ≠ yuvFormulaSpec 8000000 128 128 := by decide

/-- Claim C1 (amended): for inputs in the byte range 0..=255, the range
the YUYV codec feeds it, yuyv444_to_rgb888 returns exactly the triple of
the specified integer formula c = (y-16)*298, channels clamped after an
arithmetic shift right by 8; in particular (16,128,128) gives black and
(235,128,128) gives white. -/
theorem yuyv444_matches_formula_on_bytes (y u v : Int)
    (hy0 : 0 ≤ y) (hy1 : y ≤ 255) (hu0 : 0 ≤ u) (hu1 : u ≤ 255)
    (hv0 : 0 ≤ v) (hv1 : v ≤ 255) :
    yuyv444_to_rgb888 y u v = yuvFormulaSpec y u v ∧
    yuyv444_to_rgb888 16 128 128 = [0, 0, 0] ∧
    yuyv444_to_rgb888 235 128 128 = [255, 255, 255] := by
  refine ⟨?_, by decide, by decide⟩
  have w1 : wrap32 (y - 16) = y - 16 := wrap32_eq_self _ (by omega) (by omega)
  have w2 : wrap32 ((y - 16) * 298) = (y - 16) * 298 :=
    wrap32_eq_self _ (by omega) (by omega)
  have wd : wrap32 (u - 128) = u - 128 := wrap32_eq_self _ (by omega) (by omega)
  have we : wrap32 (v - 128) = v - 128 := wrap32_eq_self _ (by omega) (by omega)
  have p409 : wrap32 (409 * (v - 128)) = 409 * (v - 128) :=
    wrap32_eq_self _ (by omega) (by omega)
  have p100 : wrap32 (100 * (u - 128)) = 100 * (u - 128) :=
    wrap32_eq_self _ (by omega) (by omega)
  have p208 : wrap32 (208 * (v - 128)) = 208 * (v - 128) :=
    wrap32_eq_self _ (by omega) (by omega)
  have p516 : wrap32 (516 * (u - 128)) = 516 * (u - 128) :=
    wrap32_eq_self _ (by omega) (by omega)
  have sr1 : wrap32 ((y - 16) * 298 + 409 * (v - 128))
      = (y - 16) * 298 + 409 * (v - 128) :=
    wrap32_eq_self _ (by omega) (by omega)
  have sr2 : wrap32 ((y - 16) * 298 + 409 * (v - 128) + 128)
      = (y - 16) * 298 + 409 * (v - 128) + 128 :=
    wrap32_eq_self _ (by omega) (by omega)
  have sg1 : wrap32 ((y - 16) * 298 - 100 * (u - 128))
      = (y - 16) * 298 - 100 * (u - 128) :=
    wrap32_eq_self _ (by omega) (by omega)
  have sg2 : wrap32 ((y - 16) * 298 - 100 * (u - 128) - 208 * (v - 128))
      = (y - 16) * 298 - 100 * (u - 128) - 208 * (v - 128) :=
    wrap32_eq_self _ (by omega) (by omega)
  have sg3 : wrap32 ((y - 16) * 298 - 100 * (u - 128) - 208 * (v - 128) + 128)
      = (y - 16) * 298 - 100 * (u - 128) - 208 * (v - 128) + 128 :=
    wrap32_eq_self _ (by omega) (by omega)
  have sb1 : wrap32 ((y - 16) * 298 + 516 * (u - 128))
      = (y - 16) * 298 + 516 * (u - 128) :=
    wrap32_eq_self _ (by omega) (by omega)
  have sb2 : wrap32 ((y - 16) * 298 + 516 * (u - 128) + 128)
      = (y - 16) * 298 + 516 * (u - 128) + 128 :=
    wrap32_eq_self _ (by omega) (by omega)
  simp only [yuyv444_to_rgb888, yuvFormulaSpec, w1, w2, wd, we, p409, p100, p208, p516,
    sr1, sr2, sg1, sg2, sg3, sb1, sb2]

/-- Witness for C1: the amended theorem applied at the black point
(16, 128, 128). -/
theorem yuyv444_matches_formula_on_bytes_inst :
    yuyv444_to_rgb888 16 128 128 = yuvFormulaSpec 16 128 128 ∧
    yuyv444_to_rgb888 16 128 128 = [0, 0, 0] := by
  have h := yuyv444_matches_formula_on_bytes 16 128 128 (by decide) (by decide) (by decide)
    (by decide) (by decide) (by decide)
  exact ⟨h.1, h.2.1⟩

/-- Claim C2: yuyv422_to_rgb888 succeeds exactly on inputs whose length is
a multiple of 4, failing otherwise with a ProcessFrameError from YUYV; on
success the output is the group-by-group conversion, 3 output bytes for
every 2 input bytes, and every 4-byte group Y1 U Y2 V contributes the
pixel for (Y1,U,V) followed by the pixel for (Y2,U,V) in input order. -/
theorem yuyv422_success_structure (data : List Nat) :
    (data.length % 4 = 0 →
      yuyv422_to_rgb888 data = Except.ok (yuyv422_body data) ∧
      2 * (yuyv422_body data).length = 3 * data.length) ∧
    (data.length % 4 ≠ 0 →
      yuyv422_to_rgb888 data =
        Except.error (NokhwaError.ProcessFrameError FrameFormat.YUYV "RGB888" yuyvAssertMsg)) ∧
    (∀ y1 u y2 v rest, yuyv422_body (y1 :: u :: y2 :: v :: rest) =
      yuyv444_bytes y1 u v ++ yuyv444_bytes y2 u v ++ yuyv422_body rest) := by
  refine ⟨fun h => ⟨?_, yuyv422_body_length data h⟩, fun h => ?_, fun y1 u y2 v rest => rfl⟩
  · simp [yuyv422_to_rgb888, h]
  · simp [yuyv422_to_rgb888, h]

/-- Witness for C2: a 4-byte input succeeds with 6 output bytes and a
3-byte input fails with the YUYV ProcessFrameError. -/
theorem yuyv422_success_structure_inst :
    yuyv422_to_rgb888 [235, 128, 235, 128] = Except.ok (yuyv422_body [235, 128, 235, 128]) ∧
    2 * (yuyv422_body [235, 128, 235, 128]).length = 3 * ([235, 128, 235, 128] : List Nat).length ∧
    yuyv422_to_rgb888 [235, 128, 128] =
      Except.error (NokhwaError.ProcessFrameError FrameFormat.YUYV "RGB888" yuyvAssertMsg) :=
  ⟨((yuyv422_success_structure [235, 128, 235, 128]).1 (by decide)).1,
   ((yuyv422_success_structure [235, 128, 235, 128]).1 (by decide)).2,
   (yuyv422_success_structure [235, 128, 128]).2.1 (by decide)⟩

/-- Claim C3, counterexample: for the builder the claim describes (the
default builder with resolution 640x480 set non-exact), the frameRate
field also renders a fragment, so the request does not consist of the two
resolution fragments alone. -/
theorem resolution_scenario_extra_fragment :
    frame_rate_string claimedResBuilder = "frameRate: \x7b ideal: 15 \x7d" ∧
    "frameRate: \x7b ideal: 15 \x7d" ∈ renderedFragments claimedResBuilder ∧
    renderedFragments claimedResBuilder ≠
      ["height: \x7b ideal: 480 \x7d", "width: \x7b ideal: 640 \x7d"] := by decide

/-- Claim C3 (amended): for a builder whose other directives are all zero
or empty, setting only resolution 640x480 non-exact renders exactly the
fragments width: ideal(640) and height: ideal(480); however the height
fragment is not governed by the same rule as the other fields: its exact
versus ideal choice follows the aspect_ratio_exact flag, not
resolution_exact, as the last three conjuncts exhibit. -/
theorem resolution_fragments_of_zeroed_builder :
    renderedFragments resOnlyBuilder =
      ["height: \x7b ideal: 480 \x7d", "width: \x7b ideal: 640 \x7d"] ∧
    buildArgumentsCondensed resOnlyBuilder =
      ",height: \x7b ideal: 480 \x7d\n,width: \x7b ideal: 640 \x7d\n" ∧
    height_string (resOnlyBuilder.resolutionExactSet true) = "height: \x7b ideal: 480 \x7d" ∧
    width_string (resOnlyBuilder.resolutionExactSet true) = "width: \x7b exact: 640 \x7d" ∧
    height_string { resOnlyBuilder with aspect_ratio_exact := true } =
      "height: \x7b exact: 480 \x7d" := by decide

/-- Claim C4, counterexample: the default builder does not render every
field empty (its width renders an ideal fragment) and its build request is
not the unconstrained true. -/
theorem default_builder_renders_fragments :
    width_string JSCameraConstraintsBuilder.default = "width: \x7b ideal: 640 \x7d" ∧
    width_string JSCameraConstraintsBuilder.default ≠ "" ∧
    buildArgumentsCondensed JSCameraConstraintsBuilder.default ≠ "true" := by decide

/-- Claim C4 (amended): for the builder whose every directive is the zero
or empty value (0x0 resolution, zero aspect ratio, facing mode Any, zero
frame rate, resize mode Any, empty ids), every field renders empty and
build() produces the degenerate unconstrained request whose video member
is the literal true. -/
theorem zero_builder_unconstrained_request :
    buildFragments unconstrainedBuilder = ["", "", "", "", "", "", "", ""] ∧
    buildArgumentsCondensed unconstrainedBuilder = "true" ∧
    (JSCameraConstraintsBuilder.build unconstrainedBuilder).videoBody = "true" := by decide

/-- Claim C5: write_frame_to_buffer performs no bounds check before its
bulk copies; on a 1x1 session whose frame readback is 4 bytes, an empty
destination buffer makes slice::copy_from_slice panic in both the RGBA
and the RGB path, instead of returning a typed error. -/
theorem write_frame_short_buffer_panics :
    tinyCamera.min_buffer_size true = 4 ∧
    JSCamera.write_frame_to_buffer tinyCamera [1, 2, 3, 4] [] true = RustResult.panicked ∧
    JSCamera.write_frame_to_buffer tinyCamera [1, 2, 3, 4] [] false = RustResult.panicked := by
  decide

/-- Claim C6: with a nonzero step (and i32-range bounds), new, set_value
and with_value succeed exactly on strictly interior step-aligned values,
and every boundary or misaligned value is rejected with a
StructureError. -/
theorem camera_control_validation (control : KnownCameraControls)
    (flag : KnownCameraControlFlag) (active : Bool)
    (minimum maximum value step dflt : Int) (c : CameraControl)
    (hmin : -2147483648 ≤ minimum) (hstep : step ≠ 0)
    (hcmin : -2147483648 ≤ c.min) (hcstep : c.step ≠ 0) :
    (CameraControl.new control minimum maximum value step dflt flag active =
        RustResult.ok
          { control := control, min := minimum, max := maximum, value := value,
            step := step, default := dflt, flag := flag, active := active } ↔
      (minimum < value ∧ value < maximum ∧ Int.tmod value step = 0)) ∧
    ((value = minimum ∨ value = maximum ∨ Int.tmod value step ≠ 0) →
      ∃ s e, CameraControl.new control minimum maximum value step dflt flag active =
        RustResult.err (NokhwaError.StructureError s e)) ∧
    (CameraControl.set_value c value = RustResult.ok { c with value := value } ↔
      (c.min < value ∧ value < c.max ∧ Int.tmod value c.step = 0)) ∧
    ((value = c.min ∨ value = c.max ∨ Int.tmod value c.step ≠ 0) →
      ∃ s e, CameraControl.set_value c value =
        RustResult.err (NokhwaError.StructureError s e)) ∧
    (CameraControl.with_value c value =
        RustResult.ok
          { control := c.control, min := c.min, max := c.max, value := value,
            step := c.step, default := c.default, flag := c.flag, active := c.active } ↔
      (c.min < value ∧ value < c.max ∧ Int.tmod value c.step = 0)) := by
  have hg := cameraControlGuard_ok_iff minimum maximum value step hmin hstep
  have hgc := cameraControlGuard_ok_iff c.min c.max value c.step hcmin hcstep
  refine ⟨?_, ?_, ?_, ?_, ?_⟩
  · unfold CameraControl.new
    rcases hgv : cameraControlGuard minimum maximum value step with val | e | _
    · rw [hgv] at hg
      cases val
      simpa using hg.mp rfl
    · rw [hgv] at hg
      simp only [reduceCtorEq, false_iff]
      intro hc
      exact absurd (hg.mpr hc) (by simp)
    · rw [hgv] at hg
      simp only [reduceCtorEq, false_iff]
      intro hc
      exact absurd (hg.mpr hc) (by simp)
  · intro h
    obtain ⟨s, e, hge⟩ := cameraControlGuard_rejects minimum maximum value step hmin hstep h
    refine ⟨s, e, ?_⟩
    unfold CameraControl.new
    rw [hge]
  · unfold CameraControl.set_value
    rcases hgv : cameraControlGuard c.min c.max value c.step with val | e | _
    · rw [hgv] at hgc
      cases val
      simpa using hgc.mp rfl
    · rw [hgv] at hgc
      simp only [reduceCtorEq, false_iff]
      intro hc
      exact absurd (hgc.mpr hc) (by simp)
    · rw [hgv] at hgc
      simp only [reduceCtorEq, false_iff]
      intro hc
      exact absurd (hgc.mpr hc) (by simp)
  · intro h
    obtain ⟨s, e, hge⟩ := cameraControlGuard_rejects c.min c.max value c.step hcmin hcstep h
    refine ⟨s, e, ?_⟩
    unfold CameraControl.set_value
    rw [hge]
  · unfold CameraControl.with_value
    rcases hgv : cameraControlGuard c.min c.max value c.step with val | e | _
    · rw [hgv] at hgc
      cases val
      simpa using hgc.mp rfl
    · rw [hgv] at hgc
      simp only [reduceCtorEq, false_iff]
      intro hc
      exact absurd (hgc.mpr hc) (by simp)
    · rw [hgv] at hgc
      simp only [reduceCtorEq, false_iff]
      intro hc
      exact absurd (hgc.mpr hc) (by simp)

/-- Witness for C6: the aligned midpoint 50 of 0..100 with step 2 is
accepted by new and set_value, and the boundary value 0 is rejected by
new with a StructureError. -/
theorem camera_control_validation_inst :
    CameraControl.new KnownCameraControls.Brightness 0 100 50 2 50
        KnownCameraControlFlag.Manual true =
      RustResult.ok
        { control := KnownCameraControls.Brightness, min := 0, max := 100, value := 50,
          step := 2, default := 50, flag := KnownCameraControlFlag.Manual, active := true } ∧
    CameraControl.set_value sampleControl 50 =
      RustResult.ok { sampleControl with value := 50 } ∧
    (∃ s e, CameraControl.new KnownCameraControls.Brightness 0 100 0 2 50
        KnownCameraControlFlag.Manual true =
      RustResult.err (NokhwaError.StructureError s e)) := by
  refine ⟨?_, ?_, ?_⟩
  · exact (camera_control_validation KnownCameraControls.Brightness
      KnownCameraControlFlag.Manual true 0 100 50 2 50 sampleControl
      (by decide) (by decide) (by decide) (by decide)).1.mpr (by decide)
  · exact (camera_control_validation KnownCameraControls.Brightness
      KnownCameraControlFlag.Manual true 0 100 50 2 50 sampleControl
      (by decide) (by decide) (by decide) (by decide)).2.2.1.mpr (by decide)
  · exact (camera_control_validation KnownCameraControls.Brightness
      KnownCameraControlFlag.Manual true 0 100 0 2 50 sampleControl
      (by decide) (by decide) (by decide) (by decide)).2.1 (by decide)

/-- Claim C7: with step 0 and an interior value, the step-alignment test
value % step is a remainder by zero, which panics in Rust instead of
returning a typed error: new panics at (min 0, max 10, value 5, step 0)
and set_value and with_value panic on a record whose step is 0. -/
theorem camera_control_zero_step_panics :
    CameraControl.new KnownCameraControls.Brightness 0 10 5 0 0
      KnownCameraControlFlag.Manual true = RustResult.panicked ∧
    CameraControl.set_value zeroStepControl 5 = RustResult.panicked ∧
    CameraControl.with_value zeroStepControl 5 = RustResult.panicked := by decide

/-- Claim C8: the Resolution order is width-major, height-minor,
ascending: a < b exactly when a.width < b.width, or widths tie and
a.height < b.height; in particular 1x100 < 2x1. -/
theorem resolution_order_width_major :
    (∀ a b : Resolution, Resolution.ltR a b ↔
      (a.width_x < b.width_x ∨ (a.width_x = b.width_x ∧ a.height_y < b.height_y))) ∧
    Resolution.ltR (Resolution.new 1 100) (Resolution.new 2 1) := by
  constructor
  · intro a b
    unfold Resolution.ltR Resolution.cmp
    rcases h : compare a.width_x b.width_x with _ | _ | _
    · have := Nat.compare_eq_lt.mp h
      simp only [true_iff]
      tauto
    · have heq := Nat.compare_eq_eq.mp h
      constructor
      · intro hlt
        exact Or.inr ⟨heq, Nat.compare_eq_lt.mp hlt⟩
      · rintro (hw | ⟨-, hh⟩)
        · omega
        · exact Nat.compare_eq_lt.mpr hh
    · have := Nat.compare_eq_gt.mp h
      simp only [reduceCtorEq, false_iff]
      rintro (hw | ⟨hw, -⟩) <;> omega
  · decide

/-- Claim C9: on every reachable session state that is not attached
(including a freshly opened one), de_attach returns Ok with the state
unchanged, and such a state holds no attached node. -/
theorem de_attach_detached_noop (cam : JSCamera) (h1 : ReachableJSCamera cam)
    (h2 : cam.attached = false) :
    JSCamera.de_attach cam = RustResult.ok cam ∧
    cam.attached = false ∧ cam.attached_node = none := by
  refine ⟨?_, h2, reachable_unattached_node_none cam h1 h2⟩
  unfold JSCamera.de_attach
  simp [h2]

/-- Witness for C9: the theorem applied to a freshly opened, never
attached session. -/
theorem de_attach_detached_noop_inst :
    JSCamera.de_attach sampleCamera = RustResult.ok sampleCamera ∧
    sampleCamera.attached = false ∧ sampleCamera.attached_node = none :=
  de_attach_detached_noop sampleCamera
    (ReachableJSCamera.opened (JSCameraConstraintsBuilder.build unconstrainedBuilder)) rfl

/-- Claim C10: build() does not copy the builder group_id_exact into the
returned constraints; it assigns device_id_exact there (src/js_camera.rs
line 754), so a builder with group_id_exact true and device_id_exact
false builds constraints whose group_id_exact is false. -/
theorem build_group_id_exact_copies_device_flag :
    groupIdBugBuilder.group_id_exact = true ∧
    groupIdBugBuilder.device_id_exact = false ∧
    (JSCameraConstraintsBuilder.build groupIdBugBuilder).group_id_exact = false ∧
    (JSCameraConstraintsBuilder.build groupIdBugBuilder).group_id_exact ≠
      groupIdBugBuilder.group_id_exact := by decide
